import Mathlib

/-!
Verification development for the InsightExtractor ingestion/storage/analysis
pipeline.  The server routes (upload, analyze, download), the PDF extractor
and the OpenAI analysis wrapper are embedded as pure Lean functions over an
explicit world state; the external collaborators (pdf-parse, the JavaScript
Date parser, JSON.parse, the OpenAI chat completion, and the failure switches
of the object-storage and repository layers) are supplied as an oracle
record, so every run of an operation is a deterministic function of the
world, the request and the oracle.
-/

namespace InsightExtractor

/-- JavaScript runtime values in the shape they flow, untyped, out of
JSON.parse and through the analysis merge logic. -/
inductive JsVal where
  | undefined : JsVal
  | null : JsVal
  | jbool : Bool → JsVal
  | jnum : Int → JsVal
  | jstr : String → JsVal
  | jarr : List JsVal → JsVal

/-- JavaScript truthiness of a value. -/
def JsVal.truthy : JsVal → Bool
  | .undefined => false
  | .null => false
  | .jbool b => b
  | .jnum n => decide (n ≠ 0)
  | .jstr s => !s.isEmpty
  | .jarr _ => true

/-- The JavaScript short-circuit expression a-or-b. -/
def jsOr (a b : JsVal) : JsVal := if a.truthy then a else b

/-- Truthiness test used on nullable text columns and optional strings. -/
def osTruthy : Option String → Bool
  | some s => !s.isEmpty
  | none => false

/-- The JavaScript pattern value-or-default on an optional string. -/
def jsStrOrDefault (o : Option String) (d : String) : String :=
  match o with
  | some s => if s.isEmpty then d else s
  | none => d

/-- Embed an optional string as a JS value, mapping absence to undefined. -/
def jsOfOptStr : Option String → JsVal
  | some s => .jstr s
  | none => .undefined

/-- Embed an optional string as a JS value, mapping absence to null (a
nullable database column receiving an undefined insert value). -/
def jsOfOptStrNull : Option String → JsVal
  | some s => .jstr s
  | none => .null

/-- Local staging filesystem: association of paths to file contents.  File
contents are abstracted to a numeric token, since no claim inspects bytes. -/
abbrev FS := List (String × Nat)

def fsRead (fs : FS) (p : String) : Option Nat :=
  (fs.find? (fun e => e.1 == p)).map (fun e => e.2)

def fsExists (fs : FS) (p : String) : Bool := (fsRead fs p).isSome

def fsRemove (fs : FS) (p : String) : FS := fs.filter (fun e => e.1 != p)

def fsWrite (fs : FS) (p : String) (b : Nat) : FS := (p, b) :: fsRemove fs p

/-- Remote blob store contents: association of composite keys
(documentId, fileName) to object contents. -/
abbrev Blob := List ((String × String) × Nat)

def blobLookup (blob : Blob) (k1 k2 : String) : Option Nat :=
  (blob.find? (fun e => e.1.1 == k1 && e.1.2 == k2)).map (fun e => e.2)

def blobPut (blob : Blob) (k1 k2 : String) (b : Nat) : Blob :=
  ((k1, k2), b) :: blob.filter (fun e => !(e.1.1 == k1 && e.1.2 == k2))

/-- Blob-store failure modes, from the Blob Store Client contract. -/
inductive BlobErr where
  | notFound : BlobErr
  | transient : BlobErr

/- ---------- string helpers used by the pdfProcessor heuristics ---------- -/

def charsStartWith : List Char → List Char → Bool
  | [], _ => true
  | _ :: _, [] => false
  | a :: as, b :: bs => a == b && charsStartWith as bs

def charsContain : List Char → List Char → Bool
  | [], needle => needle.isEmpty
  | b :: tl, needle => charsStartWith needle (b :: tl) || charsContain tl needle

/-- JavaScript String.prototype.includes. -/
def strContains (hay needle : String) : Bool :=
  charsContain hay.toList needle.toList

/-- Whitespace class of the JavaScript regex and trim, restricted to the
common whitespace characters. -/
def isJsSpace (c : Char) : Bool := c == ' ' || c == '\t' || c == '\n' || c == '\r'

/-- Split a character list on a separator character; the JS behavior of
String.prototype.split with a one-character separator. -/
def splitCharsAux (sep : Char) : List Char → List (List Char)
  | [] => [[]]
  | c :: cs =>
    let r := splitCharsAux sep cs
    if c == sep then [] :: r
    else
      match r with
      | h :: t => (c :: h) :: t
      | [] => [[c]]

/-- JavaScript String.prototype.split with a one-character separator. -/
def jsSplitChar (sep : Char) (s : String) : List String :=
  (splitCharsAux sep s.toList).map String.mk

/-- JavaScript String.prototype.trim, over the modelled whitespace class. -/
def jsTrim (s : String) : String :=
  String.mk (((s.toList.dropWhile isJsSpace).reverse.dropWhile isJsSpace).reverse)

/-- JavaScript String.prototype.toLowerCase (ASCII case folding). -/
def jsToLower (s : String) : String :=
  String.mk (s.toList.map Char.toLower)

/-- The regular-expression test for a line of digits only. -/
def matchAllDigits (s : String) : Bool :=
  !s.isEmpty && s.toList.all Char.isDigit

def isUpperAZ (c : Char) : Bool := 'A' ≤ c && c ≤ 'Z'
def isLowerAZ (c : Char) : Bool := 'a' ≤ c && c ≤ 'z'

def dropJsSpaces : List Char → List Char
  | [] => []
  | c :: cs => if isJsSpace c then dropJsSpaces cs else c :: cs

/-- Consume a run of lowercase letters, returning its length and the rest. -/
def takeLowers : List Char → Nat × List Char
  | [] => (0, [])
  | c :: cs =>
    if isLowerAZ c then
      let r := takeLowers cs
      (r.1 + 1, r.2)
    else (0, c :: cs)

/-- Consume one capitalized name: an uppercase letter followed by at least
one lowercase letter. -/
def parseCapName (l : List Char) : Option (List Char) :=
  match l with
  | [] => none
  | c :: cs =>
    if isUpperAZ c then
      let r := takeLowers cs
      if r.1 ≥ 1 then some r.2 else none
    else none

/-- Consume one author: a capitalized first name, a space, a capitalized
last name. -/
def parseCapPair (l : List Char) : Option (List Char) :=
  match parseCapName l with
  | none => none
  | some r =>
    match r with
    | ' ' :: r2 => parseCapName r2
    | _ => none

/-- Consume the repeated tail: comma, whitespace, another name pair, down to
the end of the line.  Fuel bounds the recursion by the input length. -/
def parseAuthorTail : Nat → List Char → Bool
  | _, [] => true
  | 0, _ => false
  | f + 1, ',' :: r =>
    match parseCapPair (dropJsSpaces r) with
    | some r2 => parseAuthorTail f r2
    | none => false
  | _ + 1, _ => false

/-- Whole-line test of the author pattern used by extractAuthorsFromText. -/
def authorsRegexMatch (s : String) : Bool :=
  let l := s.toList
  match parseCapPair l with
  | some r => parseAuthorTail l.length r
  | none => false

/- ---------- pdfProcessor (src/unnamed/part_008) ---------- -/

/-- Simple heuristic to extract a title from the first lines. -/
def extractTitleFromText (text : String) : Option String :=
  let lines := (jsSplitChar '\n' text).filter (fun l => (jsTrim l).length > 0)
  ((lines.take 5).map (fun l => jsTrim l)).find? (fun t =>
    t.length > 10 && t.length < 200 &&
    !(matchAllDigits t) &&
    !(strContains (jsToLower t) "abstract") &&
    !(strContains (jsToLower t) "introduction"))

/-- Simple heuristic to find author patterns in the first lines. -/
def extractAuthorsFromText (text : String) : Option String :=
  let lines := (jsSplitChar '\n' text).filter (fun l => (jsTrim l).length > 0)
  ((lines.take 10).map (fun l => jsTrim l)).find? (fun line =>
    authorsRegexMatch line || strContains line "et al.")

/-- The info dictionary of a parsed PDF, as pdf-parse reports it. -/
structure PdfInfo where
  title : Option String
  author : Option String
  creationDate : Option String

/-- Raw result of the external pdf-parse library on a file's bytes. -/
structure PdfParseRes where
  info : Option PdfInfo
  text : String

/-- Result type of extractPDFContent. -/
structure PDFMeta where
  title : Option String
  authors : Option String
  publishedAt : Option Int
  text : String

/-- Normalize a JS string-or-null value: empty or absent becomes undefined,
modelling the trailing value-or-undefined coercions of extractPDFContent. -/
def jsStrNorm : Option String → Option String
  | some s => if s.isEmpty then none else some s
  | none => none

/-- The JavaScript short-circuit a-or-b on optional strings, where the empty
string counts as falsy. -/
def jsStrFallback (a b : Option String) : Option String :=
  match a with
  | some s => if s.isEmpty then b else some s
  | none => b

/-- The fields of the parsed OpenAI JSON response that analyzeDocument
reads: result.summary, result.insights, result.metadata (optional). -/
structure ParsedMeta where
  title : JsVal
  authors : JsVal
  publishedAt : JsVal

structure ParsedJson where
  summary : JsVal
  insights : JsVal
  metadata : Option ParsedMeta

/-- External collaborators and failure switches of one request, passed as a
single oracle record.  dateParse models the JavaScript Date constructor on a
string: some t exactly when the resulting Date is valid (getTime not NaN).
toISOStr models Date.prototype.toISOString. -/
structure Oracle where
  pdfParse : Nat → Except Unit PdfParseRes
  dateParse : String → Option Int
  toISOStr : Int → String
  aiContent : Except Unit (Option String)
  jsonParse : String → Option ParsedJson
  putFails : Bool
  blobGetTransient : Bool
  pipeFails : Bool
  createDocFails : Bool
  updateFails : Bool
  insertExtractionFails : Bool

/-- The JavaScript Date constructor applied to an arbitrary JS value.
Strings go through the oracle's parser, numbers are epoch milliseconds;
other values are modelled as producing an invalid date. -/
def newDateJs (o : Oracle) : JsVal → Option Int
  | .jstr s => o.dateParse s
  | .jnum n => some n
  | .jbool b => some (if b then 1 else 0)
  | .null => some 0
  | .undefined => none
  | .jarr _ => none

/-- extractPDFContent from the pdfProcessor module: read the file, run
pdf-parse, pull title and authors from the info dictionary with text
heuristics as fallback, and accept the creation date only when the parsed
Date is valid.  Any failure is rethrown as the single extraction error. -/
def extractPDFContent (o : Oracle) (fs : FS) (path : String) : Except String PDFMeta :=
  match fsRead fs path with
  | none => .error "Failed to extract PDF content"
  | some b =>
    match o.pdfParse b with
    | .error _ => .error "Failed to extract PDF content"
    | .ok data =>
      let info := data.info.getD { title := none, author := none, creationDate := none }
      let title := jsStrFallback info.title (extractTitleFromText data.text)
      let authors := jsStrFallback info.author (extractAuthorsFromText data.text)
      let publishedAt : Option Int :=
        match info.creationDate with
        | some s => if s.isEmpty then none else o.dateParse s
        | none => none
      .ok { title := jsStrNorm title, authors := jsStrNorm authors,
            publishedAt := publishedAt, text := data.text }

/-- Model of node path.extname for plain file names without directory
separators: the extension starts at the last dot, except a dot in the
leading position. -/
def pathExtname (name : String) : String :=
  let cs := name.toList
  let idxs := ((List.range cs.length).filter (fun i => cs.getD i ' ' == '.')).filter (fun i => i > 0)
  match idxs.getLast? with
  | none => ""
  | some i => String.mk (cs.drop i)

/-- generateFileName from the pdfProcessor module: base name, a dash, the
current timestamp, then the original extension. -/
def generateFileName (originalName : String) (timestamp : Int) : String :=
  let ext := pathExtname originalName
  let baseName := String.mk (originalName.toList.take (originalName.length - ext.length))
  baseName ++ "-" ++ toString timestamp ++ ext

/-- The last path component, modelling node path.basename. -/
def lastPathComponent (s : String) : String :=
  ((jsSplitChar '/' s).getLast?).getD ""

/- ---------- data model (src/shared/schema.ts) ---------- -/

/-- One row of the documents table.  Database strings that can be fed with
untyped JSON values (title, authors, summary, insights) are carried as JS
values; filePath is a non-nullable text column; publishedAt is a nullable
timestamp.  Document ids are modelled as numbers generated by a counter. -/
structure Document where
  id : Nat
  userId : Nat
  title : JsVal
  authors : JsVal
  publishedAt : Option Int
  filePath : String
  originalFileName : Option String
  objectStoragePath : Option String
  summary : JsVal
  insights : Option (List JsVal)
  createdAt : Int

/-- One row of the extractions table. -/
structure Extraction where
  id : Nat
  documentId : Nat
  summary : JsVal
  insights : List JsVal
  createdAt : Int

/-- The whole mutable state one request acts on: the staging filesystem, the
blob store, the documents and extractions tables, the id counters, and the
request-time clock (the value Date.now() returns during this request). -/
structure World where
  fs : FS
  blob : Blob
  docs : List Document
  exts : List Extraction
  nextDocId : Nat
  nextExtId : Nat
  now : Int

def findDoc (docs : List Document) (docId : Nat) : Option Document :=
  docs.find? (fun d => d.id == docId)

/-- A partial update of a document row.  An outer none models a field that
is absent (or undefined) in the update object and is therefore skipped by
the repository, exactly as drizzle skips undefined set values. -/
structure DocPatch where
  title : Option JsVal
  authors : Option JsVal
  publishedAt : Option (Option Int)
  summary : Option JsVal
  insights : Option (Option (List JsVal))
  objectStoragePath : Option (Option String)

def applyPatch (d : Document) (p : DocPatch) : Document :=
  { d with
    title := p.title.getD d.title
    authors := p.authors.getD d.authors
    publishedAt := p.publishedAt.getD d.publishedAt
    summary := p.summary.getD d.summary
    insights := p.insights.getD d.insights
    objectStoragePath := p.objectStoragePath.getD d.objectStoragePath }

/-- Modelled from the spec: the Document Repository's create operation
(storage.createDocument, whose implementation file is not in the sources;
only its callers are).  Inserts one row with a fresh id and the request
clock as createdAt; the oracle switch models a repository failure. -/
def storageCreateDocument (w : World) (u : Nat) (pd : PDFMeta) (originalName : String)
    (finalPath : String) (o : Oracle) : Except String (World × Document) :=
  if o.createDocFails then .error "Failed to create document"
  else
    let d : Document :=
      { id := w.nextDocId
        userId := u
        title := jsOfOptStrNull pd.title
        authors := jsOfOptStrNull pd.authors
        publishedAt := pd.publishedAt
        filePath := finalPath
        originalFileName := some originalName
        objectStoragePath := none
        summary := .null
        insights := none
        createdAt := w.now }
    .ok ({ w with docs := d :: w.docs, nextDocId := w.nextDocId + 1 }, d)

/-- Modelled from the spec: the Document Repository's update operation
(storage.updateDocument).  Applies the patch to the row with the given id
and returns the updated row; the oracle switch models a repository
failure (PersistenceFailed). -/
def storageUpdateDocument (w : World) (docId : Nat) (p : DocPatch) (o : Oracle) :
    Except String (World × Option Document) :=
  if o.updateFails then .error "Failed to update document"
  else
    let docs1 := w.docs.map (fun d => if d.id == docId then applyPatch d p else d)
    let ret := (w.docs.find? (fun d => d.id == docId)).map (fun d => applyPatch d p)
    .ok ({ w with docs := docs1 }, ret)

/-- Modelled from the spec: the Document Repository's create operation for
Extraction records (storage.createExtraction). -/
def storageCreateExtraction (w : World) (docId : Nat) (summary : JsVal)
    (insights : List JsVal) (o : Oracle) : Except String World :=
  if o.insertExtractionFails then .error "Failed to create extraction"
  else
    let e : Extraction :=
      { id := w.nextExtId, documentId := docId, summary := summary,
        insights := insights, createdAt := w.now }
    .ok { w with exts := e :: w.exts, nextExtId := w.nextExtId + 1 }

/-- The object path the object-storage service returns for an uploaded
document file; the format is the one the analyze route parses back:
slash bucket slash documents slash documentId slash filename. -/
def objectPathFor (docId : Nat) (name : String) : String :=
  "/bucket/documents/" ++ toString docId ++ "/" ++ name

/-- Modelled from the spec: the Blob Store Client's get operation
(objectStorageService.getDocumentFile, whose implementation file is not in
the sources).  Fails with a transient error when the oracle says so, with
not-found when the composite key is absent. -/
def blobGet (o : Oracle) (blob : Blob) (k1 k2 : String) : Except BlobErr Nat :=
  if o.blobGetTransient then .error .transient
  else
    match blobLookup blob k1 k2 with
    | some b => .ok b
    | none => .error .notFound

/-- JavaScript array indexing with a possibly negative index. -/
def jsArrGet (l : List String) (i : Int) : Option String :=
  if i < 0 then none else l.get? i.toNat

/- ---------- openaiService.analyzeDocument (src/unnamed/part_005) ---------- -/

/-- The metadata hints the analyze route passes along, after its
value-or-undefined coercions. -/
structure ExistingMeta where
  title : JsVal
  authors : JsVal
  publishedAt : Option Int

/-- Result shape of analyzeDocument as it exists at runtime: summary and the
metadata fields are whatever JS values came out of the response merge, and
insights is the response array (or the empty default). -/
structure DocumentAnalysis where
  summary : JsVal
  insights : List JsVal
  metaTitle : JsVal
  metaAuthors : JsVal
  metaPublishedAt : JsVal

/-- analyzeDocument: call the chat completion (the prompt text, including
the 15000-character truncation of the document text, only affects the
external call and is absorbed into the oracle), JSON-parse the content with
an empty-object default for empty content, then assemble the result:
summary falls back to the literal placeholder, insights defaults to the
empty list unless the parsed value is an array, and each metadata field
falls back to the existing metadata hint.  Every thrown error is rethrown
as the single analysis failure message. -/
def analyzeDocument (o : Oracle) (text : String) (em : ExistingMeta) :
    Except String DocumentAnalysis :=
  let _promptText := String.mk (text.toList.take 15000)
  match o.aiContent with
  | .error _ => .error "Failed to analyze document with AI"
  | .ok content =>
    let raw := match content with
      | none => "\x7b\x7d"
      | some s => if s.isEmpty then "\x7b\x7d" else s
    match o.jsonParse raw with
    | none => .error "Failed to analyze document with AI"
    | some result =>
      let mTitle := match result.metadata with | some m => m.title | none => .undefined
      let mAuthors := match result.metadata with | some m => m.authors | none => .undefined
      let mPub := match result.metadata with | some m => m.publishedAt | none => .undefined
      .ok
        { summary := jsOr result.summary (.jstr "No summary available")
          insights := match result.insights with | .jarr xs => xs | _ => []
          metaTitle := jsOr mTitle em.title
          metaAuthors := jsOr mAuthors em.authors
          metaPublishedAt :=
            jsOr mPub (match em.publishedAt with
                       | some t => .jstr (o.toISOStr t)
                       | none => .undefined) }

/- ---------- server routes (src/unnamed/part_005, registerRoutes) ---------- -/

structure ReqFile where
  path : String
  originalname : String

inductive UploadResult where
  | created : Document → UploadResult
  | badRequest : String → UploadResult
  | serverError : String → UploadResult

inductive AnalyzeResult where
  | okDoc : Option Document → AnalyzeResult
  | notFound : String → AnalyzeResult
  | forbidden : String → AnalyzeResult
  | serverError : String → AnalyzeResult

inductive DownloadResult where
  | remoteBytes : Nat → DownloadResult
  | localBytes : Nat → String → DownloadResult
  | notFound : String → DownloadResult
  | forbidden : String → DownloadResult
  | serverError : String → DownloadResult

/-- The catch handler of the upload route: delete the uploaded file if it
still exists at the multer path req.file.path, then answer 500.  Note the
check is on the original multer path, not on the renamed staging path. -/
def uploadCatch (w : World) (f : ReqFile) (msg : String) : World × UploadResult :=
  (if fsExists w.fs f.path then { w with fs := fsRemove w.fs f.path } else w,
   .serverError msg)

/-- The upload route handler: rename the multer file into the staging
directory, extract, create the document row, then attempt the promotion to
the blob store; a promotion failure is logged and the call still answers 201
with the document created before promotion. -/
def uploadRoute (w : World) (u : Nat) (file : Option ReqFile) (o : Oracle) :
    World × UploadResult :=
  match file with
  | none => (w, .badRequest "No PDF file uploaded")
  | some f =>
    let fileName := generateFileName f.originalname w.now
    let finalPath := "uploads/" ++ fileName
    match fsRead w.fs f.path with
    | none => uploadCatch w f "rename failed"
    | some bytes =>
      let fs1 := fsWrite (fsRemove w.fs f.path) finalPath bytes
      let w1 := { w with fs := fs1 }
      match extractPDFContent o fs1 finalPath with
      | .error m => uploadCatch w1 f m
      | .ok pdfData =>
        match storageCreateDocument w1 u pdfData f.originalname finalPath o with
        | .error m => uploadCatch w1 f m
        | .ok (w2, document) =>
          match fsRead w2.fs finalPath with
          | none => (w2, .created document)
          | some buf =>
            if o.putFails then (w2, .created document)
            else
              let objectPath := objectPathFor document.id f.originalname
              let w3 := { w2 with blob := blobPut w2.blob (toString document.id) f.originalname buf }
              match storageUpdateDocument w3 document.id
                  { title := none, authors := none, publishedAt := none,
                    summary := none, insights := none,
                    objectStoragePath := some (some objectPath) } o with
              | .error _ => (w3, .created document)
              | .ok (w4, _) =>
                ({ w4 with fs := fsRemove w4.fs finalPath }, .created document)

/-- The temp path the analyze route stages a remote object into. -/
def tempPathFor (w : World) (doc : Document) : String :=
  "uploads/temp-" ++ toString w.now ++ "-" ++ jsStrOrDefault doc.originalFileName "document.pdf"

/-- The metadata hints object the analyze route builds from the document. -/
def docHints (doc : Document) : ExistingMeta :=
  { title := if doc.title.truthy then doc.title else .undefined
    authors := if doc.authors.truthy then doc.authors else .undefined
    publishedAt := doc.publishedAt }

/-- Delete the staged temp file if one was created and still exists: the
body of the finally block of the analyze route. -/
def cleanupTemp (fs : FS) (tempFilePath : Option String) : FS :=
  match tempFilePath with
  | some p => if fsExists fs p then fsRemove fs p else fs
  | none => fs

/-- The update object the analyze route persists. -/
def analyzePatch (doc : Document) (a : DocumentAnalysis) (validDate : Option Int) : DocPatch :=
  { title := some (jsOr a.metaTitle doc.title)
    authors := some (jsOr a.metaAuthors doc.authors)
    publishedAt := match validDate with | some t => some (some t) | none => none
    summary := some a.summary
    insights := some (some a.insights)
    objectStoragePath := none }

/-- The second half of the analyze route: the try block that calls the
analysis service, validates the refined date, persists the update and the
extraction record, with the finally block deleting the staged temp file on
every exit path of this block. -/
def analyzeCore (w : World) (tempFilePath : Option String) (doc : Document)
    (pdfData : PDFMeta) (o : Oracle) : World × AnalyzeResult :=
  match analyzeDocument o pdfData.text (docHints doc) with
  | .error m => ({ w with fs := cleanupTemp w.fs tempFilePath }, .serverError m)
  | .ok analysis =>
    let validAnalysisDate : Option Int :=
      if analysis.metaPublishedAt.truthy then
        match newDateJs o analysis.metaPublishedAt with
        | some t => some t
        | none => doc.publishedAt
      else doc.publishedAt
    match storageUpdateDocument w doc.id (analyzePatch doc analysis validAnalysisDate) o with
    | .error m => ({ w with fs := cleanupTemp w.fs tempFilePath }, .serverError m)
    | .ok (w1, updatedDocument) =>
      match storageCreateExtraction w1 doc.id analysis.summary analysis.insights o with
      | .error m => ({ w1 with fs := cleanupTemp w1.fs tempFilePath }, .serverError m)
      | .ok w2 => ({ w2 with fs := cleanupTemp w2.fs tempFilePath }, .okDoc updatedDocument)

/-- The analyze route handler.  Resolution: the local file when present on
disk, else a temp copy downloaded from the blob store when the document has
an object-storage path, else failure.  Any error of this resolution block is
rethrown as the single file-access message; the try/finally cleanup only
wraps the analysis and persistence block that follows resolution. -/
def analyzeRoute (w : World) (u : Nat) (docId : Nat) (o : Oracle) :
    World × AnalyzeResult :=
  match findDoc w.docs docId with
  | none => (w, .notFound "Document not found")
  | some doc =>
    if doc.userId ≠ u then (w, .forbidden "Access denied")
    else if fsExists w.fs doc.filePath then
      match extractPDFContent o w.fs doc.filePath with
      | .error _ => (w, .serverError "Unable to access PDF file for analysis")
      | .ok pdfData => analyzeCore w none doc pdfData o
    else if osTruthy doc.objectStoragePath then
      let osp := doc.objectStoragePath.getD ""
      let tempFilePath := tempPathFor w doc
      let parts := jsSplitChar '/' osp
      let n : Int := parts.length
      let docKey := (jsArrGet parts (n - 2)).getD "undefined"
      let fname := (jsArrGet parts (n - 1)).getD "undefined"
      match blobGet o w.blob docKey fname with
      | .error _ => (w, .serverError "Unable to access PDF file for analysis")
      | .ok bytes =>
        if o.pipeFails then
          ({ w with fs := fsWrite w.fs tempFilePath 0 },
           .serverError "Unable to access PDF file for analysis")
        else
          let fs1 := fsWrite w.fs tempFilePath bytes
          match extractPDFContent o fs1 tempFilePath with
          | .error _ => ({ w with fs := fs1 }, .serverError "Unable to access PDF file for analysis")
          | .ok pdfData => analyzeCore { w with fs := fs1 } (some tempFilePath) doc pdfData o
    else (w, .serverError "Unable to access PDF file for analysis")

/-- The download route handler: blob store first when the document has both
an object-storage path and an original file name; any error of the blob
attempt falls through to the local file; 404 when neither tier resolves. -/
def downloadRoute (w : World) (u : Nat) (docId : Nat) (o : Oracle) :
    World × DownloadResult :=
  match findDoc w.docs docId with
  | none => (w, .notFound "Document not found")
  | some doc =>
    if doc.userId ≠ u then (w, .forbidden "Access denied")
    else
      let localFallback : DownloadResult :=
        if !doc.filePath.isEmpty then
          match fsRead w.fs doc.filePath with
          | some b => .localBytes b (jsStrOrDefault doc.originalFileName (lastPathComponent doc.filePath))
          | none => .notFound "File not found"
        else .notFound "File not found"
      if osTruthy doc.objectStoragePath && osTruthy doc.originalFileName then
        match blobGet o w.blob (toString doc.id) (doc.originalFileName.getD "") with
        | .ok b => (w, .remoteBytes b)
        | .error _ => (w, localFallback)
      else (w, localFallback)

/- ---------- basic lemmas about the staging filesystem ---------- -/

theorem fsRead_fsWrite_self (fs : FS) (p : String) (b : Nat) :
    fsRead (fsWrite fs p b) p = some b := by
  simp [fsRead, fsWrite, List.find?]

theorem fsRead_fsRemove_self (fs : FS) (p : String) :
    fsRead (fsRemove fs p) p = none := by
  have h : (fsRemove fs p).find? (fun e => e.1 == p) = none := by
    rw [List.find?_eq_none]
    intro x hx
    have := List.of_mem_filter hx
    simpa using this
  simp [fsRead, h]

theorem fsRead_fsRemove_ne (fs : FS) (p q : String) (h : p ≠ q) :
    fsRead (fsRemove fs q) p = fsRead fs p := by
  unfold fsRead fsRemove
  rw [List.find?_filter]
  have hpred : (fun (a : String × Nat) => decide ((a.1 != q) = true ∧ (a.1 == p) = true))
      = (fun (a : String × Nat) => a.1 == p) := by
    funext a
    by_cases hp : a.1 = p
    · simp [hp, h]
    · simp [hp]
  rw [hpred]

theorem fsRead_fsWrite_ne (fs : FS) (p q : String) (b : Nat) (h : p ≠ q) :
    fsRead (fsWrite fs q b) p = fsRead fs p := by
  have hne : (q == p) = false := by simpa using fun hq => h hq.symm
  simp [fsWrite, fsRead, List.find?, hne]
  have := fsRead_fsRemove_ne fs p q h
  simpa [fsRead] using this

theorem fsExists_fsRemove_self (fs : FS) (p : String) :
    fsExists (fsRemove fs p) p = false := by
  simp [fsExists, fsRead_fsRemove_self]

theorem blobLookup_blobPut_self (blob : Blob) (k1 k2 : String) (b : Nat) :
    blobLookup (blobPut blob k1 k2 b) k1 k2 = some b := by
  simp [blobLookup, blobPut, List.find?]

/- ---------- concrete fixtures used by witnesses and counterexamples ---------- -/

/-- A fully successful oracle for concrete runs. -/
def oracleA : Oracle :=
  { pdfParse := fun _ => .ok
      { info := some { title := some "Sample Document Title", author := some "A",
                       creationDate := some "D" }
        text := "text" }
    dateParse := fun s => if s = "D" then some 55 else none
    toISOStr := fun t => "ISODATE" ++ toString t
    aiContent := .ok (some "resp")
    jsonParse := fun _ => some
      { summary := .jstr "sum", insights := .jarr [.jstr "i1"]
        metadata := some { title := .jstr "newT", authors := .undefined, publishedAt := .jstr "bad" } }
    putFails := false
    blobGetTransient := false
    pipeFails := false
    createDocFails := false
    updateFails := false
    insertExtractionFails := false }

/-- Oracle whose text extractor fails on every input. -/
def oracleExtractFail : Oracle := { oracleA with pdfParse := fun _ => .error () }

/-- A multer request file sitting at its temporary path. -/
def reqFileA : ReqFile := { path := "mtmp", originalname := "doc.pdf" }

/-- An empty server state holding only the multer upload at its temp path. -/
def worldUpload : World :=
  { fs := [("mtmp", 7)], blob := [], docs := [], exts := [], nextDocId := 1,
    nextExtId := 1, now := 100 }

/-- A document whose bytes live only in the blob store (the local staging
copy is gone). -/
def docRemote : Document :=
  { id := 1, userId := 1, title := .null, authors := .null, publishedAt := some 5,
    filePath := "uploads/gone.pdf", originalFileName := some "doc.pdf",
    objectStoragePath := some "/bucket/documents/1/doc.pdf", summary := .null,
    insights := none, createdAt := 0 }

/-- Server state around docRemote: blob store holds the object, nothing is
staged locally. -/
def worldRemote : World :=
  { fs := [], blob := [(("1", "doc.pdf"), 9)], docs := [docRemote], exts := [],
    nextDocId := 2, nextExtId := 1, now := 100 }

/-- A document present in both tiers. -/
def docBothTiers : Document := { docRemote with filePath := "uploads/local.pdf" }

/-- Server state in which docBothTiers has a local copy and a remote copy. -/
def worldBothTiers : World :=
  { worldRemote with docs := [docBothTiers], fs := [("uploads/local.pdf", 3)] }

/- ---------- claim theorems ---------- -/

/-- Claim C1: the claim states that an Analyze call which stages a temporary
file from remote storage deletes it on every exit path, including an
extraction failure on the staged bytes.  The code violates this: the
try/finally cleanup only wraps the analysis/persistence block, not the
resolution block, so when the extractor fails on the downloaded temp file
the error propagates with the temp file still present.  This theorem runs
the analyze route on a remote-only document whose staged bytes the extractor
rejects: the call returns the 500 failure and the staged temp file
uploads/temp-100-doc.pdf is still present in the staging filesystem. -/
theorem c1_staged_temp_file_leaks_on_extraction_failure :
    (analyzeRoute worldRemote 1 1 oracleExtractFail).2
        = .serverError "Unable to access PDF file for analysis" ∧
    fsExists (analyzeRoute worldRemote 1 1 oracleExtractFail).1.fs
        "uploads/temp-100-doc.pdf" = true :=
  ⟨rfl, rfl⟩

/-- Claim C8: the claim states that when extraction fails during Upload, the
staged file at its post-staging path is deleted before the error returns.
The code violates this: the catch handler checks and unlinks req.file.path,
the pre-rename multer path, which no longer exists after the renameSync into
the staging directory; the staged file at the final path survives.  This
theorem runs the upload route with a failing extractor: the call returns the
extraction error with no document created, yet the staged file at
uploads/doc-100.pdf is still present. -/
theorem c8_staged_file_orphaned_on_extraction_failure :
    (uploadRoute worldUpload 1 (some reqFileA) oracleExtractFail).2
        = .serverError "Failed to extract PDF content" ∧
    (uploadRoute worldUpload 1 (some reqFileA) oracleExtractFail).1.docs = [] ∧
    fsExists (uploadRoute worldUpload 1 (some reqFileA) oracleExtractFail).1.fs
        "uploads/doc-100.pdf" = true :=
  ⟨rfl, rfl, rfl⟩

/-- The document record the upload route creates for worldUpload, reqFileA
and oracleA, before promotion. -/
def uploadDocStale : Document :=
  { id := 1, userId := 1, title := .jstr "Sample Document Title", authors := .jstr "A",
    publishedAt := some 55, filePath := "uploads/doc-100.pdf",
    originalFileName := some "doc.pdf", objectStoragePath := none, summary := .null,
    insights := none, createdAt := 100 }

/-- Claim C3 counterexample: in a fully successful upload (promotion to the
blob store succeeds), the claim requires the Document returned by the call
to reflect the final storage state (remoteKey non-null).  The code responds
with the pre-promotion record: the returned document's objectStoragePath is
null even though the stored row was updated to the object path. -/
theorem c3_counterexample_stale_response :
    (uploadRoute worldUpload 1 (some reqFileA) oracleA).2 = .created uploadDocStale ∧
    uploadDocStale.objectStoragePath = none ∧
    findDoc (uploadRoute worldUpload 1 (some reqFileA) oracleA).1.docs 1
        = some ({ uploadDocStale with objectStoragePath := some "/bucket/documents/1/doc.pdf" }) :=
  ⟨rfl, rfl, rfl⟩

/-- Claim C5 counterexample: the claim requires the denial for a document
owned by another user to be the same generic response as for a nonexistent
document.  The code answers 403 Access denied for the foreign document and
404 Document not found for the missing one, on both Analyze and Download, so
the two cases are observably distinct and existence under another owner is
leaked. -/
theorem c5_counterexample_distinguishable_denial :
    (analyzeRoute worldRemote 2 1 oracleA).2 = .forbidden "Access denied" ∧
    (analyzeRoute worldRemote 2 99 oracleA).2 = .notFound "Document not found" ∧
    AnalyzeResult.forbidden "Access denied" ≠ AnalyzeResult.notFound "Document not found" ∧
    (downloadRoute worldRemote 2 1 oracleA).2 = .forbidden "Access denied" ∧
    (downloadRoute worldRemote 2 99 oracleA).2 = .notFound "Document not found" ∧
    DownloadResult.forbidden "Access denied" ≠ DownloadResult.notFound "Document not found" :=
  ⟨rfl, rfl, fun h => AnalyzeResult.noConfusion h, rfl, rfl,
   fun h => DownloadResult.noConfusion h⟩

/-- Oracle whose blob-store get fails with a transient (non-not-found)
error. -/
def oracleTransient : Oracle := { oracleA with blobGetTransient := true }

/-- Claim C7 counterexample: the claim requires Download not to fall back to
the local copy on a transient (non-not-found) blob-store error.  Here the
blob-store get fails with a transient error while the object is present, and
the code still serves the local copy: the catch branch distinguishes the two
error kinds only in its log message and falls through to the local file in
both cases. -/
theorem c7_counterexample_transient_fallback :
    blobGet oracleTransient worldBothTiers.blob "1" "doc.pdf" = .error .transient ∧
    (downloadRoute worldBothTiers 1 1 oracleTransient).2 = .localBytes 3 "doc.pdf" :=
  ⟨rfl, rfl⟩

/-- A parsed analysis response with no insights array at all. -/
def parsedNoInsights : ParsedJson :=
  { summary := .jstr "s", insights := .undefined, metadata := none }

/-- Oracle whose analysis response parses to an object with no insights
array at all. -/
def oracleNoInsights : Oracle :=
  { oracleA with jsonParse := fun _ => some parsedNoInsights }

/-- Claim C9 counterexample: the claim requires a response that is not a
summary plus a plain insight list to be treated as an InvalidResponse error.
The code instead accepts a response with no insights array, silently
defaulting insights to the empty list and returning ok. -/
theorem c9_counterexample_insights_defaulted :
    analyzeDocument oracleNoInsights "text"
        { title := .undefined, authors := .undefined, publishedAt := none }
      = .ok { summary := .jstr "s", insights := [], metaTitle := .undefined,
              metaAuthors := .undefined, metaPublishedAt := .undefined } :=
  rfl

/-- Claim C2: if staging, extraction and document creation succeed but the
promotion put to the blob store fails, the upload call still answers 201
with the created document; that document has its local path set and its
object-storage path null, the row stored for it agrees, and the staged local
file is retained as the fallback copy.  The promotion failure is not
surfaced to the caller. -/
theorem c2_promotion_failure_upload_still_succeeds
    (w : World) (u : Nat) (f : ReqFile) (o : Oracle) (b : Nat) (pd : PdfParseRes)
    (hread : fsRead w.fs f.path = some b)
    (hpdf : o.pdfParse b = .ok pd)
    (hcd : o.createDocFails = false)
    (hput : o.putFails = true) :
    ∃ d, (uploadRoute w u (some f) o).2 = .created d ∧
      d.objectStoragePath = none ∧
      d.filePath = "uploads/" ++ generateFileName f.originalname w.now ∧
      findDoc (uploadRoute w u (some f) o).1.docs d.id = some d ∧
      fsExists (uploadRoute w u (some f) o).1.fs d.filePath = true := by
  have hw : fsRead (fsWrite (fsRemove w.fs f.path)
      ("uploads/" ++ generateFileName f.originalname w.now) b)
      ("uploads/" ++ generateFileName f.originalname w.now) = some b :=
    fsRead_fsWrite_self _ _ _
  refine ⟨⟨w.nextDocId, u,
    jsOfOptStrNull (jsStrNorm (jsStrFallback (pd.info.getD ⟨none, none, none⟩).title
      (extractTitleFromText pd.text))),
    jsOfOptStrNull (jsStrNorm (jsStrFallback (pd.info.getD ⟨none, none, none⟩).author
      (extractAuthorsFromText pd.text))),
    (match (pd.info.getD ⟨none, none, none⟩).creationDate with
     | some s => if s.isEmpty then none else o.dateParse s
     | none => none),
    "uploads/" ++ generateFileName f.originalname w.now,
    some f.originalname, none, .null, none, w.now⟩, ?_, ?_, ?_, ?_, ?_⟩ <;>
    simp [uploadRoute, hread, extractPDFContent, hw, hpdf, storageCreateDocument, hcd, hput,
      findDoc, fsExists]

/-- The oracle for a run in which only the promotion put fails. -/
def oraclePutFails : Oracle := { oracleA with putFails := true }

/-- The pdf-parse result oracleA produces. -/
def pdParseA : PdfParseRes :=
  { info := some { title := some "Sample Document Title", author := some "A",
                   creationDate := some "D" }
    text := "text" }

/-- Witness for C2 at a concrete upload. -/
theorem c2_witness :
    ∃ d, (uploadRoute worldUpload 1 (some reqFileA) oraclePutFails).2 = .created d ∧
      d.objectStoragePath = none ∧
      d.filePath = "uploads/" ++ generateFileName reqFileA.originalname worldUpload.now ∧
      findDoc (uploadRoute worldUpload 1 (some reqFileA) oraclePutFails).1.docs d.id = some d ∧
      fsExists (uploadRoute worldUpload 1 (some reqFileA) oraclePutFails).1.fs d.filePath = true :=
  c2_promotion_failure_upload_still_succeeds worldUpload 1 reqFileA oraclePutFails 7 pdParseA
    rfl rfl rfl rfl

/-- Claim C3 amended: on a successful promotion, the stored document row
gets its object-storage path set to the object path and the staged local
file is deleted, and the blob store holds the bytes under the composite key;
but the filePath column remains set to the (now deleted) staging path rather
than becoming null, and the document returned in the 201 response is the
pre-promotion record whose object-storage path is still null. -/
theorem c3_promotion_success_storage_state
    (w : World) (u : Nat) (f : ReqFile) (o : Oracle) (b : Nat) (pd : PdfParseRes)
    (hread : fsRead w.fs f.path = some b)
    (hpdf : o.pdfParse b = .ok pd)
    (hcd : o.createDocFails = false)
    (hput : o.putFails = false)
    (hupd : o.updateFails = false) :
    ∃ d, (uploadRoute w u (some f) o).2 = .created d ∧
      d.id = w.nextDocId ∧
      d.objectStoragePath = none ∧
      d.filePath = "uploads/" ++ generateFileName f.originalname w.now ∧
      findDoc (uploadRoute w u (some f) o).1.docs d.id
        = some ({ d with objectStoragePath := some (objectPathFor d.id f.originalname) }) ∧
      fsExists (uploadRoute w u (some f) o).1.fs d.filePath = false ∧
      blobLookup (uploadRoute w u (some f) o).1.blob (toString d.id) f.originalname = some b := by
  have hw : fsRead (fsWrite (fsRemove w.fs f.path)
      ("uploads/" ++ generateFileName f.originalname w.now) b)
      ("uploads/" ++ generateFileName f.originalname w.now) = some b :=
    fsRead_fsWrite_self _ _ _
  refine ⟨⟨w.nextDocId, u,
    jsOfOptStrNull (jsStrNorm (jsStrFallback (pd.info.getD ⟨none, none, none⟩).title
      (extractTitleFromText pd.text))),
    jsOfOptStrNull (jsStrNorm (jsStrFallback (pd.info.getD ⟨none, none, none⟩).author
      (extractAuthorsFromText pd.text))),
    (match (pd.info.getD ⟨none, none, none⟩).creationDate with
     | some s => if s.isEmpty then none else o.dateParse s
     | none => none),
    "uploads/" ++ generateFileName f.originalname w.now,
    some f.originalname, none, .null, none, w.now⟩, ?_, ?_, ?_, ?_, ?_, ?_, ?_⟩ <;>
    simp [uploadRoute, hread, extractPDFContent, hw, hpdf, storageCreateDocument, hcd, hput,
      hupd, storageUpdateDocument, applyPatch, findDoc, fsExists, fsRead_fsRemove_self,
      blobLookup_blobPut_self, objectPathFor]

/-- Witness for the amended C3 at a concrete upload. -/
theorem c3_witness :
    ∃ d, (uploadRoute worldUpload 1 (some reqFileA) oracleA).2 = .created d ∧
      d.id = worldUpload.nextDocId ∧
      d.objectStoragePath = none ∧
      d.filePath = "uploads/" ++ generateFileName reqFileA.originalname worldUpload.now ∧
      findDoc (uploadRoute worldUpload 1 (some reqFileA) oracleA).1.docs d.id
        = some ({ d with objectStoragePath := some (objectPathFor d.id reqFileA.originalname) }) ∧
      fsExists (uploadRoute worldUpload 1 (some reqFileA) oracleA).1.fs d.filePath = false ∧
      blobLookup (uploadRoute worldUpload 1 (some reqFileA) oracleA).1.blob
        (toString d.id) reqFileA.originalname = some 7 :=
  c3_promotion_success_storage_state worldUpload 1 reqFileA oracleA 7 pdParseA
    rfl rfl rfl rfl rfl

/-- Claim C4: date validation.  First conjunct (Upload): when the extractor
offers a creation date that is empty or fails date parsing, the created
document's publishedAt is null, whatever the promotion outcome.  Second
conjunct (Analyze): when the analysis response offers a non-empty refined
date string that fails date parsing, the persisted document keeps its
previous publishedAt.  Third conjunct (Analyze): when the refined date is
the empty string and the document had no previous date, publishedAt stays
null rather than becoming invalid. -/
theorem c4_date_validation :
    (∀ (w : World) (u : Nat) (f : ReqFile) (o : Oracle) (b : Nat) (pd : PdfParseRes) (s : String),
      fsRead w.fs f.path = some b →
      o.pdfParse b = .ok pd →
      o.createDocFails = false →
      (pd.info.getD ⟨none, none, none⟩).creationDate = some s →
      (s = "" ∨ o.dateParse s = none) →
      ∀ d, (uploadRoute w u (some f) o).2 = .created d → d.publishedAt = none) ∧
    (∀ (w : World) (u docId : Nat) (o : Oracle) (doc : Document) (lb : Nat)
        (pd : PdfParseRes) (c : Option String) (pj : ParsedJson) (pm : ParsedMeta) (s : String),
      findDoc w.docs docId = some doc →
      doc.userId = u →
      fsRead w.fs doc.filePath = some lb →
      o.pdfParse lb = .ok pd →
      o.aiContent = .ok c →
      (∀ t, o.jsonParse t = some pj) →
      pj.metadata = some pm →
      pm.publishedAt = .jstr s →
      s ≠ "" →
      o.dateParse s = none →
      o.updateFails = false →
      o.insertExtractionFails = false →
      ∃ d', (analyzeRoute w u docId o).2 = .okDoc (some d') ∧
        d'.publishedAt = doc.publishedAt) ∧
    (∀ (w : World) (u docId : Nat) (o : Oracle) (doc : Document) (lb : Nat)
        (pd : PdfParseRes) (c : Option String) (pj : ParsedJson) (pm : ParsedMeta),
      findDoc w.docs docId = some doc →
      doc.userId = u →
      fsRead w.fs doc.filePath = some lb →
      o.pdfParse lb = .ok pd →
      o.aiContent = .ok c →
      (∀ t, o.jsonParse t = some pj) →
      pj.metadata = some pm →
      pm.publishedAt = .jstr "" →
      doc.publishedAt = none →
      o.updateFails = false →
      o.insertExtractionFails = false →
      ∃ d', (analyzeRoute w u docId o).2 = .okDoc (some d') ∧
        d'.publishedAt = none) := by
  refine ⟨?_, ?_, ?_⟩
  · intro w u f o b pd s hread hpdf hcd hdate hbad d heq
    have hw : fsRead (fsWrite (fsRemove w.fs f.path)
        ("uploads/" ++ generateFileName f.originalname w.now) b)
        ("uploads/" ++ generateFileName f.originalname w.now) = some b :=
      fsRead_fsWrite_self _ _ _
    have hemp : "".isEmpty = true := rfl
    cases hput : o.putFails with
    | true =>
      simp [uploadRoute, hread, extractPDFContent, hw, hpdf, storageCreateDocument, hcd,
        hput] at heq
      rcases hbad with rfl | hbad <;> simp [← heq, hdate, hemp, *]
    | false =>
      cases hupd : o.updateFails with
      | true =>
        simp [uploadRoute, hread, extractPDFContent, hw, hpdf, storageCreateDocument, hcd,
          hput, hupd, storageUpdateDocument] at heq
        rcases hbad with rfl | hbad <;> simp [← heq, hdate, hemp, *]
      | false =>
        simp [uploadRoute, hread, extractPDFContent, hw, hpdf, storageCreateDocument, hcd,
          hput, hupd, storageUpdateDocument] at heq
        rcases hbad with rfl | hbad <;> simp [← heq, hdate, hemp, *]
  · intro w u docId o doc lb pd c pj pm s hfind hown hlocal hpdf hai hjson hmeta hpub hs
      hbad hupd hext
    have hid : doc.id = docId := by
      have := List.find?_some hfind
      simpa using this
    have hse : s.isEmpty = false := by
      cases hh : s.isEmpty
      · rfl
      · exact absurd ((String.isEmpty_iff s).mp hh) hs
    have hfind2 : w.docs.find? (fun d => d.id == doc.id) = some doc := by
      rw [hid]
      simpa [findDoc] using hfind
    cases hdp : doc.publishedAt with
    | none =>
      simp [analyzeRoute, hfind, hown, fsExists, hlocal, extractPDFContent, hpdf, analyzeCore,
        analyzeDocument, hai, hjson, hmeta, hpub, jsOr, JsVal.truthy, hse, newDateJs, hbad,
        hupd, hext, storageUpdateDocument, storageCreateExtraction, hfind2, applyPatch,
        analyzePatch, docHints, hdp]
    | some t =>
      simp [analyzeRoute, hfind, hown, fsExists, hlocal, extractPDFContent, hpdf, analyzeCore,
        analyzeDocument, hai, hjson, hmeta, hpub, jsOr, JsVal.truthy, hse, newDateJs, hbad,
        hupd, hext, storageUpdateDocument, storageCreateExtraction, hfind2, applyPatch,
        analyzePatch, docHints, hdp]
  · intro w u docId o doc lb pd c pj pm hfind hown hlocal hpdf hai hjson hmeta hpub hdp
      hupd hext
    have hid : doc.id = docId := by
      have := List.find?_some hfind
      simpa using this
    have hfind2 : w.docs.find? (fun d => d.id == doc.id) = some doc := by
      rw [hid]
      simpa [findDoc] using hfind
    have hemp : "".isEmpty = true := rfl
    simp [analyzeRoute, hfind, hown, fsExists, hlocal, extractPDFContent, hpdf, analyzeCore,
      analyzeDocument, hai, hjson, hmeta, hpub, jsOr, JsVal.truthy, newDateJs, hemp,
      hupd, hext, storageUpdateDocument, storageCreateExtraction, hfind2, applyPatch,
      analyzePatch, docHints, hdp]

/-- Oracle on which every date string fails to parse. -/
def oracleBadDate : Oracle := { oracleA with dateParse := fun _ => none }

/-- The parsed analysis response oracleA produces. -/
def parsedA : ParsedJson :=
  { summary := .jstr "sum", insights := .jarr [.jstr "i1"]
    metadata := some { title := .jstr "newT", authors := .undefined, publishedAt := .jstr "bad" } }

/-- A parsed analysis response whose refined date is the empty string. -/
def parsedEmptyDate : ParsedJson :=
  { summary := .jstr "s", insights := .jarr []
    metadata := some { title := .undefined, authors := .undefined, publishedAt := .jstr "" } }

/-- Oracle whose analysis response offers an empty refined date. -/
def oracleEmptyDate : Oracle := { oracleA with jsonParse := fun _ => some parsedEmptyDate }

/-- docBothTiers without a previously known publication date. -/
def docNoDate : Document := { docBothTiers with publishedAt := none }

/-- worldBothTiers around docNoDate. -/
def worldNoDate : World := { worldBothTiers with docs := [docNoDate] }

/-- Witness for C4 at concrete runs of all three conjuncts. -/
theorem c4_witness :
    ((uploadRoute worldUpload 1 (some reqFileA) oracleBadDate).2
        = .created ({ uploadDocStale with publishedAt := none }) ∧
      ({ uploadDocStale with publishedAt := none } : Document).publishedAt = none) ∧
    (∃ d', (analyzeRoute worldBothTiers 1 1 oracleA).2 = .okDoc (some d') ∧
      d'.publishedAt = docBothTiers.publishedAt) ∧
    (∃ d', (analyzeRoute worldNoDate 1 1 oracleEmptyDate).2 = .okDoc (some d') ∧
      d'.publishedAt = none) := by
  refine ⟨⟨rfl, ?_⟩, ?_, ?_⟩
  · exact c4_date_validation.1 worldUpload 1 reqFileA oracleBadDate 7 pdParseA "D"
      rfl rfl rfl rfl (Or.inr rfl) _ rfl
  · exact c4_date_validation.2.1 worldBothTiers 1 1 oracleA docBothTiers 3 pdParseA
      (some "resp") parsedA ⟨.jstr "newT", .undefined, .jstr "bad"⟩ "bad"
      rfl rfl rfl rfl rfl (fun _ => rfl) rfl rfl (by decide) rfl rfl rfl
  · exact c4_date_validation.2.2 worldNoDate 1 1 oracleEmptyDate docNoDate 3 pdParseA
      (some "resp") parsedEmptyDate ⟨.undefined, .undefined, .jstr ""⟩
      rfl rfl rfl rfl rfl (fun _ => rfl) rfl rfl rfl rfl rfl

/-- Claim C5 amended: the two denials are deterministic but distinct.  For
any state and oracle, a document owned by another user always yields the 403
Access denied response and a nonexistent document id always yields the 404
Document not found response, on both Analyze and Download; the two responses
differ, so the denial leaks whether the document exists under another
owner. -/
theorem c5_denials_distinct :
    (∀ (w : World) (u docId : Nat) (o : Oracle) (doc : Document),
      findDoc w.docs docId = some doc → doc.userId ≠ u →
      (analyzeRoute w u docId o).2 = .forbidden "Access denied" ∧
      (downloadRoute w u docId o).2 = .forbidden "Access denied") ∧
    (∀ (w : World) (u docId : Nat) (o : Oracle),
      findDoc w.docs docId = none →
      (analyzeRoute w u docId o).2 = .notFound "Document not found" ∧
      (downloadRoute w u docId o).2 = .notFound "Document not found") := by
  constructor
  · intro w u docId o doc hfind hown
    constructor <;> simp [analyzeRoute, downloadRoute, hfind, hown]
  · intro w u docId o hfind
    constructor <;> simp [analyzeRoute, downloadRoute, hfind]

/-- Witness for the amended C5 at a concrete state. -/
theorem c5_witness :
    ((analyzeRoute worldRemote 2 1 oracleA).2 = .forbidden "Access denied" ∧
     (downloadRoute worldRemote 2 1 oracleA).2 = .forbidden "Access denied") ∧
    ((analyzeRoute worldRemote 2 99 oracleA).2 = .notFound "Document not found" ∧
     (downloadRoute worldRemote 2 99 oracleA).2 = .notFound "Document not found") :=
  ⟨c5_denials_distinct.1 worldRemote 2 1 oracleA docRemote rfl (by decide),
   c5_denials_distinct.2 worldRemote 2 99 oracleA rfl⟩

/-- The staging filesystem of the world analyzeCore returns is the input
filesystem with the finally-block cleanup applied, on every branch of the
analysis/persistence block. -/
theorem analyzeCore_fs (w : World) (tfp : Option String) (doc : Document)
    (pd : PDFMeta) (o : Oracle) :
    (analyzeCore w tfp doc pd o).1.fs = cleanupTemp w.fs tfp := by
  unfold analyzeCore
  rcases ha : analyzeDocument o pd.text (docHints doc) with m | a
  · simp
  · by_cases hu : o.updateFails
    · simp [storageUpdateDocument, hu]
    · by_cases he : o.insertExtractionFails
      · simp [storageUpdateDocument, hu, storageCreateExtraction, he]
      · simp [storageUpdateDocument, hu, storageCreateExtraction, he]

/-- Claim C6: storage resolution precedence of Analyze.  First conjunct:
when the document's local file is present, the call leaves the staging
filesystem untouched on every outcome (no staging happens).  Second
conjunct: when the local file is absent and an object-storage path is set
and the blob download succeeds, the call stages the downloaded bytes at the
per-call temp path tempPathFor and continues by extracting exactly that
staged file.  Third conjunct: when the local file is absent and no
object-storage path is set, the call fails with the content-unavailable
error and changes nothing. -/
theorem c6_storage_resolution :
    (∀ (w : World) (u docId : Nat) (o : Oracle) (doc : Document),
      findDoc w.docs docId = some doc →
      doc.userId = u →
      fsExists w.fs doc.filePath = true →
      (analyzeRoute w u docId o).1.fs = w.fs) ∧
    (∀ (w : World) (u docId : Nat) (o : Oracle) (doc : Document) (osp : String) (bytes : Nat),
      findDoc w.docs docId = some doc →
      doc.userId = u →
      fsExists w.fs doc.filePath = false →
      doc.objectStoragePath = some osp →
      osp.isEmpty = false →
      blobGet o w.blob
        ((jsArrGet (jsSplitChar '/' osp) (((jsSplitChar '/' osp).length : Int) - 2)).getD "undefined")
        ((jsArrGet (jsSplitChar '/' osp) (((jsSplitChar '/' osp).length : Int) - 1)).getD "undefined")
        = .ok bytes →
      o.pipeFails = false →
      analyzeRoute w u docId o =
        match extractPDFContent o (fsWrite w.fs (tempPathFor w doc) bytes) (tempPathFor w doc) with
        | .error _ => ({ w with fs := fsWrite w.fs (tempPathFor w doc) bytes },
                       .serverError "Unable to access PDF file for analysis")
        | .ok pdfData => analyzeCore ({ w with fs := fsWrite w.fs (tempPathFor w doc) bytes })
            (some (tempPathFor w doc)) doc pdfData o) ∧
    (∀ (w : World) (u docId : Nat) (o : Oracle) (doc : Document),
      findDoc w.docs docId = some doc →
      doc.userId = u →
      fsExists w.fs doc.filePath = false →
      osTruthy doc.objectStoragePath = false →
      analyzeRoute w u docId o = (w, .serverError "Unable to access PDF file for analysis")) := by
  refine ⟨?_, ?_, ?_⟩
  · intro w u docId o doc hfind hown hex
    rcases hE : extractPDFContent o w.fs doc.filePath with m | pdm <;>
      simp [analyzeRoute, hfind, hown, hex, hE, analyzeCore_fs, cleanupTemp]
  · intro w u docId o doc osp bytes hfind hown hnl hos hne hget hpipe
    simp [analyzeRoute, hfind, hown, hnl, hos, osTruthy, hne, hget, hpipe]
  · intro w u docId o doc hfind hown hnl hos
    simp [analyzeRoute, hfind, hown, hnl, hos]

/-- A document no tier can serve: no local file, no object-storage path. -/
def docNoTiers : Document := { docRemote with objectStoragePath := none }

/-- Server state around docNoTiers. -/
def worldNoTiers : World := { worldRemote with docs := [docNoTiers] }

/-- Witness for C6 at concrete runs of all three conjuncts. -/
theorem c6_witness :
    ((analyzeRoute worldBothTiers 1 1 oracleA).1.fs = worldBothTiers.fs) ∧
    (analyzeRoute worldRemote 1 1 oracleA =
      match extractPDFContent oracleA
          (fsWrite worldRemote.fs (tempPathFor worldRemote docRemote) 9)
          (tempPathFor worldRemote docRemote) with
      | .error _ => ({ worldRemote with
            fs := fsWrite worldRemote.fs (tempPathFor worldRemote docRemote) 9 },
          .serverError "Unable to access PDF file for analysis")
      | .ok pdfData => analyzeCore ({ worldRemote with
            fs := fsWrite worldRemote.fs (tempPathFor worldRemote docRemote) 9 })
          (some (tempPathFor worldRemote docRemote)) docRemote pdfData oracleA) ∧
    (analyzeRoute worldNoTiers 1 1 oracleA
      = (worldNoTiers, .serverError "Unable to access PDF file for analysis")) :=
  ⟨c6_storage_resolution.1 worldBothTiers 1 1 oracleA docBothTiers rfl rfl rfl,
   c6_storage_resolution.2.1 worldRemote 1 1 oracleA docRemote "/bucket/documents/1/doc.pdf" 9
     rfl rfl rfl rfl rfl rfl rfl,
   c6_storage_resolution.2.2 worldNoTiers 1 1 oracleA docNoTiers rfl rfl rfl rfl⟩

/-- Claim C7 amended: Download tries the blob store first when the document
has both an object-storage path and an original file name, serving the
remote bytes when the get succeeds; on any blob-store failure, not-found or
transient alike, it falls back to the local file when one is present; when
the blob attempt fails and no local file exists it answers 404 File not
found. -/
theorem c7_download_fallback_behavior :
    (∀ (w : World) (u docId : Nat) (o : Oracle) (doc : Document) (name : String) (b : Nat),
      findDoc w.docs docId = some doc →
      doc.userId = u →
      osTruthy doc.objectStoragePath = true →
      doc.originalFileName = some name →
      name.isEmpty = false →
      o.blobGetTransient = false →
      blobLookup w.blob (toString doc.id) name = some b →
      (downloadRoute w u docId o).2 = .remoteBytes b) ∧
    (∀ (w : World) (u docId : Nat) (o : Oracle) (doc : Document) (name : String) (lb : Nat),
      findDoc w.docs docId = some doc →
      doc.userId = u →
      osTruthy doc.objectStoragePath = true →
      doc.originalFileName = some name →
      name.isEmpty = false →
      (o.blobGetTransient = true ∨ blobLookup w.blob (toString doc.id) name = none) →
      doc.filePath.isEmpty = false →
      fsRead w.fs doc.filePath = some lb →
      (downloadRoute w u docId o).2
        = .localBytes lb (jsStrOrDefault doc.originalFileName (lastPathComponent doc.filePath))) ∧
    (∀ (w : World) (u docId : Nat) (o : Oracle) (doc : Document) (name : String),
      findDoc w.docs docId = some doc →
      doc.userId = u →
      osTruthy doc.objectStoragePath = true →
      doc.originalFileName = some name →
      name.isEmpty = false →
      (o.blobGetTransient = true ∨ blobLookup w.blob (toString doc.id) name = none) →
      fsRead w.fs doc.filePath = none →
      (downloadRoute w u docId o).2 = .notFound "File not found") := by
  refine ⟨?_, ?_, ?_⟩
  · intro w u docId o doc name b hfind hown hos hname hne htr hlook
    have hos2 : osTruthy (some name) = true := by simp [osTruthy, hne]
    simp [downloadRoute, hfind, hown, hos, hname, hos2, blobGet, htr, hlook]
  · intro w u docId o doc name lb hfind hown hos hname hne herr hfp hlocal
    rcases herr with herr | herr
    · simp [downloadRoute, hfind, hown, hos, hname, hne, blobGet, herr, hfp, hlocal]
    · cases htr : o.blobGetTransient <;>
        simp [downloadRoute, hfind, hown, hos, hname, hne, blobGet, herr, htr, hfp, hlocal]
  · intro w u docId o doc name hfind hown hos hname hne herr hlocal
    cases hfp : doc.filePath.isEmpty <;> rcases herr with herr | herr <;>
      [skip; (cases htr : o.blobGetTransient); skip; (cases htr : o.blobGetTransient)] <;>
      simp_all [downloadRoute, blobGet]

/-- worldRemote with the blob object deleted out-of-band. -/
def worldRemoteGone : World := { worldRemote with blob := [] }

/-- Witness for the amended C7 at concrete runs of all three conjuncts. -/
theorem c7_witness :
    ((downloadRoute worldBothTiers 1 1 oracleA).2 = .remoteBytes 9) ∧
    ((downloadRoute worldBothTiers 1 1 oracleTransient).2
      = .localBytes 3 (jsStrOrDefault docBothTiers.originalFileName
          (lastPathComponent docBothTiers.filePath))) ∧
    ((downloadRoute worldRemoteGone 1 1 oracleA).2 = .notFound "File not found") :=
  ⟨c7_download_fallback_behavior.1 worldBothTiers 1 1 oracleA docBothTiers "doc.pdf" 9
     rfl rfl rfl rfl rfl rfl rfl,
   c7_download_fallback_behavior.2.1 worldBothTiers 1 1 oracleTransient docBothTiers "doc.pdf" 3
     rfl rfl rfl rfl rfl (Or.inl rfl) rfl rfl,
   c7_download_fallback_behavior.2.2 worldRemoteGone 1 1 oracleA docRemote "doc.pdf"
     rfl rfl rfl rfl rfl (Or.inr rfl) rfl⟩

/-- Claim C9 amended: the analysis wrapper does not reject malformed
responses.  First conjunct: when the response JSON parses but its insights
field is not an array, the call succeeds with insights silently defaulted to
the empty list and the summary given the value-or-placeholder fallback.
Second conjunct: an unparseable JSON body is surfaced as the single generic
analysis failure.  Third conjunct: a failed service call is surfaced as the
same generic failure. -/
theorem c9_response_handling :
    (∀ (o : Oracle) (text : String) (em : ExistingMeta) (c : Option String) (pj : ParsedJson),
      o.aiContent = .ok c →
      (∀ t, o.jsonParse t = some pj) →
      (∀ xs, pj.insights ≠ .jarr xs) →
      ∃ r, analyzeDocument o text em = .ok r ∧ r.insights = [] ∧
        r.summary = jsOr pj.summary (.jstr "No summary available")) ∧
    (∀ (o : Oracle) (text : String) (em : ExistingMeta) (c : Option String),
      o.aiContent = .ok c →
      (∀ t, o.jsonParse t = none) →
      analyzeDocument o text em = .error "Failed to analyze document with AI") ∧
    (∀ (o : Oracle) (text : String) (em : ExistingMeta) (e : Unit),
      o.aiContent = .error e →
      analyzeDocument o text em = .error "Failed to analyze document with AI") := by
  refine ⟨?_, ?_, ?_⟩
  · intro o text em c pj hai hjson hins
    cases hpj : pj.insights <;>
      simp [analyzeDocument, hai, hjson, hpj] <;>
      exact absurd hpj (by simpa using hins _)
  · intro o text em c hai hjson
    simp [analyzeDocument, hai, hjson]
  · intro o text em e hai
    simp [analyzeDocument, hai]

/-- Oracle whose response body fails JSON parsing. -/
def oracleBadJson : Oracle := { oracleA with jsonParse := fun _ => none }

/-- Oracle whose analysis service call itself fails. -/
def oracleAiDown : Oracle := { oracleA with aiContent := .error () }

/-- Witness for the amended C9 at concrete oracles. -/
theorem c9_witness :
    (∃ r, analyzeDocument oracleNoInsights "text"
        ({ title := .undefined, authors := .undefined, publishedAt := none }) = .ok r ∧
      r.insights = [] ∧
      r.summary = jsOr parsedNoInsights.summary (.jstr "No summary available")) ∧
    (analyzeDocument oracleBadJson "text"
        ({ title := .undefined, authors := .undefined, publishedAt := none })
      = .error "Failed to analyze document with AI") ∧
    (analyzeDocument oracleAiDown "text"
        ({ title := .undefined, authors := .undefined, publishedAt := none })
      = .error "Failed to analyze document with AI") :=
  ⟨c9_response_handling.1 oracleNoInsights "text" _ (some "resp") parsedNoInsights
     rfl (fun _ => rfl) (fun _ h => JsVal.noConfusion h),
   c9_response_handling.2.1 oracleBadJson "text" _ (some "resp") rfl (fun _ => rfl),
   c9_response_handling.2.2 oracleAiDown "text" _ () rfl⟩

/-- Mapping a row-targeted patch whose objectStoragePath entry is absent
over the documents table preserves every document's id, userId,
originalFileName, createdAt, filePath and objectStoragePath. -/
theorem mem_map_patch (docs : List Document) (docId : Nat) (p : DocPatch)
    (hos : p.objectStoragePath = none) :
    ∀ d' ∈ docs.map (fun d => if (d.id == docId) = true then applyPatch d p else d),
      ∃ d, d ∈ docs ∧ d'.id = d.id ∧ d'.userId = d.userId ∧
        d'.originalFileName = d.originalFileName ∧ d'.createdAt = d.createdAt ∧
        d'.filePath = d.filePath ∧ d'.objectStoragePath = d.objectStoragePath := by
  intro d' h
  rw [List.mem_map] at h
  obtain ⟨d, hd, hfd⟩ := h
  refine ⟨d, hd, ?_⟩
  by_cases hid : (d.id == docId) = true
  · rw [← hfd]
    simp [hid, applyPatch, hos]
  · rw [← hfd]
    simp [hid]

/-- Every document in the table after the analysis/persistence block comes
from a document in the table before it, with the immutable fields and the
storage fields unchanged. -/
theorem analyzeCore_docs (w : World) (tfp : Option String) (doc : Document)
    (pd : PDFMeta) (o : Oracle) :
    ∀ d' ∈ (analyzeCore w tfp doc pd o).1.docs, ∃ d, d ∈ w.docs ∧
      d'.id = d.id ∧ d'.userId = d.userId ∧ d'.originalFileName = d.originalFileName ∧
      d'.createdAt = d.createdAt ∧ d'.filePath = d.filePath ∧
      d'.objectStoragePath = d.objectStoragePath := by
  unfold analyzeCore
  rcases ha : analyzeDocument o pd.text (docHints doc) with m | a
  · intro d' h
    exact ⟨d', by simpa using h, rfl, rfl, rfl, rfl, rfl, rfl⟩
  · by_cases hu : o.updateFails
    · simp only [storageUpdateDocument, hu, if_true]
      intro d' h
      exact ⟨d', by simpa using h, rfl, rfl, rfl, rfl, rfl, rfl⟩
    · by_cases he : o.insertExtractionFails
      · simp only [storageUpdateDocument, hu, storageCreateExtraction, he,
          Bool.false_eq_true, if_false, if_true]
        intro d' h
        exact mem_map_patch w.docs doc.id _ rfl d' h
      · simp only [storageUpdateDocument, hu, storageCreateExtraction, he,
          Bool.false_eq_true, if_false, if_true]
        intro d' h
        exact mem_map_patch w.docs doc.id _ rfl d' h

/-- Every document in the table after an Analyze call comes from a document
in the table before it, with the immutable fields and the storage fields
unchanged. -/
theorem analyzeRoute_docs_frame (w : World) (u docId : Nat) (o : Oracle) :
    ∀ d' ∈ (analyzeRoute w u docId o).1.docs, ∃ d, d ∈ w.docs ∧
      d'.id = d.id ∧ d'.userId = d.userId ∧ d'.originalFileName = d.originalFileName ∧
      d'.createdAt = d.createdAt ∧ d'.filePath = d.filePath ∧
      d'.objectStoragePath = d.objectStoragePath := by
  intro d' h
  unfold analyzeRoute at h
  rcases hf : findDoc w.docs docId with _ | doc
  · simp only [hf] at h
    exact ⟨d', h, rfl, rfl, rfl, rfl, rfl, rfl⟩
  · simp only [hf] at h
    by_cases ho : doc.userId ≠ u
    · rw [if_pos ho] at h
      exact ⟨d', h, rfl, rfl, rfl, rfl, rfl, rfl⟩
    · rw [if_neg ho] at h
      by_cases hex : fsExists w.fs doc.filePath = true
      · simp only [hex, if_true] at h
        rcases hE : extractPDFContent o w.fs doc.filePath with m | pdm
        · simp only [hE] at h
          exact ⟨d', h, rfl, rfl, rfl, rfl, rfl, rfl⟩
        · simp only [hE] at h
          exact analyzeCore_docs w none doc pdm o d' h
      · simp only [eq_false_of_ne_true hex, Bool.false_eq_true, if_false] at h
        by_cases hos : osTruthy doc.objectStoragePath = true
        · simp only [hos, if_true] at h
          rcases hg : blobGet o w.blob
              ((jsArrGet (jsSplitChar '/' (doc.objectStoragePath.getD ""))
                (((jsSplitChar '/' (doc.objectStoragePath.getD "")).length : Int) - 2)).getD "undefined")
              ((jsArrGet (jsSplitChar '/' (doc.objectStoragePath.getD ""))
                (((jsSplitChar '/' (doc.objectStoragePath.getD "")).length : Int) - 1)).getD "undefined")
            with e | bytes
          · simp only [hg] at h
            exact ⟨d', h, rfl, rfl, rfl, rfl, rfl, rfl⟩
          · simp only [hg] at h
            by_cases hp : o.pipeFails = true
            · simp only [hp, if_true] at h
              exact ⟨d', h, rfl, rfl, rfl, rfl, rfl, rfl⟩
            · simp only [eq_false_of_ne_true hp, Bool.false_eq_true, if_false] at h
              rcases hE : extractPDFContent o
                  (fsWrite w.fs (tempPathFor w doc) bytes) (tempPathFor w doc) with m | pdm
              · simp only [hE] at h
                exact ⟨d', h, rfl, rfl, rfl, rfl, rfl, rfl⟩
              · simp only [hE] at h
                exact analyzeCore_docs ({ w with fs := fsWrite w.fs (tempPathFor w doc) bytes })
                  (some (tempPathFor w doc)) doc pdm o d' h
        · simp only [eq_false_of_ne_true hos, Bool.false_eq_true, if_false] at h
          exact ⟨d', h, rfl, rfl, rfl, rfl, rfl, rfl⟩

/-- A Download call returns the world unchanged: it mutates nothing. -/
theorem downloadRoute_world (w : World) (u docId : Nat) (o : Oracle) :
    (downloadRoute w u docId o).1 = w := by
  unfold downloadRoute
  rcases hf : findDoc w.docs docId with _ | doc
  · rfl
  · by_cases ho : doc.userId ≠ u
    · simp [ho]
    · simp only [if_neg ho]
      by_cases hos : (osTruthy doc.objectStoragePath && osTruthy doc.originalFileName) = true
      · simp only [hos, if_true]
        rcases hg : blobGet o w.blob (toString doc.id) (doc.originalFileName.getD "")
          with e | bb <;> simp [hg]
      · simp [hos]

/-- Every document present before an Upload call is still present after it
with id, userId, originalFileName and createdAt unchanged, whatever branch
the call takes. -/
theorem uploadRoute_docs_frame (w : World) (u : Nat) (file : Option ReqFile) (o : Oracle) :
    ∀ d ∈ w.docs, ∃ d', d' ∈ (uploadRoute w u file o).1.docs ∧
      d'.id = d.id ∧ d'.userId = d.userId ∧ d'.originalFileName = d.originalFileName ∧
      d'.createdAt = d.createdAt := by
  intro d hd
  cases file with
  | none => exact ⟨d, hd, rfl, rfl, rfl, rfl⟩
  | some f =>
    unfold uploadRoute
    rcases hr : fsRead w.fs f.path with _ | b
    · simp only [hr, uploadCatch]
      by_cases hfe : fsExists w.fs f.path = true <;>
        simp only [hfe, Bool.false_eq_true, eq_false_of_ne_true, if_true, if_false] <;>
        first
          | exact ⟨d, hd, rfl, rfl, rfl, rfl⟩
          | (simp only [eq_false_of_ne_true hfe, Bool.false_eq_true, if_false]
             exact ⟨d, hd, rfl, rfl, rfl, rfl⟩)
    · simp only [hr]
      rcases hE : extractPDFContent o
          (fsWrite (fsRemove w.fs f.path) ("uploads/" ++ generateFileName f.originalname w.now) b)
          ("uploads/" ++ generateFileName f.originalname w.now) with m | pdm
      · simp only [hE, uploadCatch]
        by_cases hfe : fsExists (fsWrite (fsRemove w.fs f.path)
            ("uploads/" ++ generateFileName f.originalname w.now) b) f.path = true <;>
          first
            | (simp only [hfe, if_true]; exact ⟨d, hd, rfl, rfl, rfl, rfl⟩)
            | (simp only [eq_false_of_ne_true hfe, Bool.false_eq_true, if_false]
               exact ⟨d, hd, rfl, rfl, rfl, rfl⟩)
      · simp only [hE]
        by_cases hcd : o.createDocFails = true
        · simp only [storageCreateDocument, hcd, if_true, uploadCatch]
          by_cases hfe : fsExists (fsWrite (fsRemove w.fs f.path)
              ("uploads/" ++ generateFileName f.originalname w.now) b) f.path = true <;>
            first
              | (simp only [hfe, if_true]; exact ⟨d, hd, rfl, rfl, rfl, rfl⟩)
              | (simp only [eq_false_of_ne_true hfe, Bool.false_eq_true, if_false]
                 exact ⟨d, hd, rfl, rfl, rfl, rfl⟩)
        · simp only [storageCreateDocument, eq_false_of_ne_true hcd, Bool.false_eq_true,
            if_false]
          rcases hb : fsRead (fsWrite (fsRemove w.fs f.path)
              ("uploads/" ++ generateFileName f.originalname w.now) b)
              ("uploads/" ++ generateFileName f.originalname w.now) with _ | buf
          · simp only [hb]
            exact ⟨d, List.mem_cons_of_mem _ hd, rfl, rfl, rfl, rfl⟩
          · simp only [hb]
            by_cases hput : o.putFails = true
            · simp only [hput, if_true]
              exact ⟨d, List.mem_cons_of_mem _ hd, rfl, rfl, rfl, rfl⟩
            · simp only [eq_false_of_ne_true hput, Bool.false_eq_true, if_false]
              by_cases hupd : o.updateFails = true
              · simp only [storageUpdateDocument, hupd, if_true]
                exact ⟨d, List.mem_cons_of_mem _ hd, rfl, rfl, rfl, rfl⟩
              · simp only [storageUpdateDocument, eq_false_of_ne_true hupd,
                  Bool.false_eq_true, if_false]
                refine ⟨_, List.mem_map_of_mem _ (List.mem_cons_of_mem _ hd), ?_⟩
                by_cases hid : (d.id == w.nextDocId) = true <;> simp [hid, applyPatch]

/-- Claim C10: frame conditions.  First conjunct (Analyze): every document
row after an Analyze call descends from a pre-call row with the same id,
userId, originalFileName and createdAt, and also the same filePath and
objectStoragePath — Analyze mutates only metadata and summary/insights.
Second conjunct (Download): the call leaves the whole world untouched.
Third conjunct (Upload): every pre-existing document row survives an Upload
call with id, userId, originalFileName and createdAt unchanged (the
promotion update touches only the storage field of the row it targets). -/
theorem c10_frame_conditions :
    (∀ (w : World) (u docId : Nat) (o : Oracle),
      ∀ d' ∈ (analyzeRoute w u docId o).1.docs, ∃ d, d ∈ w.docs ∧
        d'.id = d.id ∧ d'.userId = d.userId ∧ d'.originalFileName = d.originalFileName ∧
        d'.createdAt = d.createdAt ∧ d'.filePath = d.filePath ∧
        d'.objectStoragePath = d.objectStoragePath) ∧
    (∀ (w : World) (u docId : Nat) (o : Oracle), (downloadRoute w u docId o).1 = w) ∧
    (∀ (w : World) (u : Nat) (file : Option ReqFile) (o : Oracle),
      ∀ d ∈ w.docs, ∃ d', d' ∈ (uploadRoute w u file o).1.docs ∧
        d'.id = d.id ∧ d'.userId = d.userId ∧ d'.originalFileName = d.originalFileName ∧
        d'.createdAt = d.createdAt) :=
  ⟨fun w u docId o => analyzeRoute_docs_frame w u docId o,
   fun w u docId o => downloadRoute_world w u docId o,
   fun w u file o => uploadRoute_docs_frame w u file o⟩

/-- Witness for C10 at a concrete state and run of each conjunct. -/
theorem c10_witness :
    (∃ d, d ∈ worldBothTiers.docs ∧
      docBothTiers.id = d.id ∧ docBothTiers.userId = d.userId ∧
      docBothTiers.originalFileName = d.originalFileName ∧
      docBothTiers.createdAt = d.createdAt ∧ docBothTiers.filePath = d.filePath ∧
      docBothTiers.objectStoragePath = d.objectStoragePath) ∧
    ((downloadRoute worldBothTiers 1 1 oracleA).1 = worldBothTiers) ∧
    (∃ d', d' ∈ (uploadRoute worldBothTiers 1 (some reqFileA) oracleA).1.docs ∧
      d'.id = docBothTiers.id ∧ d'.userId = docBothTiers.userId ∧
      d'.originalFileName = docBothTiers.originalFileName ∧
      d'.createdAt = docBothTiers.createdAt) := by
  refine ⟨?_, ?_, ?_⟩
  · exact c10_frame_conditions.1 worldBothTiers 2 1 oracleA docBothTiers
      (List.mem_singleton.mpr rfl)
  · exact c10_frame_conditions.2.1 worldBothTiers 1 1 oracleA
  · exact c10_frame_conditions.2.2 worldBothTiers 1 (some reqFileA) oracleA docBothTiers
      (List.mem_singleton.mpr rfl)

end InsightExtractor
